import Mathlib

/-!
# Verification of the miami-reunion-app generation/webhook pipeline

Shallow embedding of the core subsystem of the repository:

* `WebhookService` (src/src/services/WebhookService.ts): best-effort webhook
  delivery with an in-memory retry queue and exponential backoff.
* `ImageGenerationService` (services/ImageGenerationService.ts): keyword-based
  provider selection between the Gemini and ByteDance SeeDream providers, and
  commerce post-processing with graceful degradation.
* The bounded-concurrency generation orchestrator (`handleGenerateClick`,
  `processStyle`, `handleRegenerateStyle` in the main App component).

Remote effects (HTTP delivery outcomes, image-generation outcomes, the image
post-processor) are passed in as explicit parameters, so every definition is
an executable function of the code's inputs plus the environment's responses.
-/

namespace MiamiApp

/-! ## WebhookService (src/src/services/WebhookService.ts) -/

/-- An automation event (`AutomationEvent` in WebhookService.ts).  The payload
is opaque to the retry logic, so it is kept as plain strings here. -/
structure AutomationEvent where
  type : String
  data : String
  userId : Option String := none
deriving Repr, DecidableEq

/-- `WebhookQueueItem` from WebhookService.ts.  Timestamps are milliseconds
since an arbitrary epoch, as with JavaScript `Date.now()`. -/
structure WebhookQueueItem where
  id : Nat
  event : AutomationEvent
  attempts : Nat
  nextRetry : Nat
  maxRetries : Nat
  createdAt : Nat
deriving Repr, DecidableEq

/-- The service's delivery statistics (`this.stats`). -/
structure WebhookStats where
  totalSent : Nat
  totalFailed : Nat
  totalRetried : Nat
deriving Repr, DecidableEq

/-- The mutable state of a `WebhookService` instance. -/
structure WebhookState where
  webhookUrl : String
  failedQueue : List WebhookQueueItem
  stats : WebhookStats
deriving Repr, DecidableEq

/-- `private readonly maxRetries: number = 3`. -/
def serviceMaxRetries : Nat := 3

/-- `private readonly retryDelay: number = 5000`. -/
def retryDelay : Nat := 5000

/-- The result of one HTTP POST of the payload: either a response with a
status code and body, or a network-level error. -/
inductive HttpResult
  | response (status : Nat) (body : String)
  | networkError (msg : String)
deriving Repr, DecidableEq

/-- `sendWebhook` (WebhookService.ts lines 104-124): throws on a network
error, and throws `Webhook request failed: <status> - <body>` when
`response.ok` is false (`ok` means status in [200,300)). -/
def sendWebhook (r : HttpResult) : Except String Unit :=
  match r with
  | .networkError m => .error m
  | .response status body =>
      if 200 ≤ status ∧ status < 300 then .ok ()
      else .error ("Webhook request failed: " ++ toString status ++ " - " ++ body)

/-- Whether a delivery attempt with HTTP outcome `r` succeeds. -/
def deliverySucceeds (r : HttpResult) : Bool :=
  match sendWebhook r with
  | .ok _ => true
  | .error _ => false

/-- `queueFailedWebhook` (lines 126-140): wraps the event in a fresh
`WebhookQueueItem` with `attempts = 0`, `nextRetry = now + retryDelay`,
`maxRetries = 3`, adds it to the queue and bumps `totalFailed`. -/
def queueFailedWebhook (st : WebhookState) (ev : AutomationEvent) (now newId : Nat) :
    WebhookState :=
  let item : WebhookQueueItem :=
    { id := newId, event := ev, attempts := 0, nextRetry := now + retryDelay,
      maxRetries := serviceMaxRetries, createdAt := now }
  { st with
    failedQueue := item :: st.failedQueue,
    stats := { st.stats with totalFailed := st.stats.totalFailed + 1 } }

/-- `emit` (lines 60-79).  An empty `webhookUrl` means "not configured": the
method returns before any delivery.  Otherwise it attempts one delivery,
bumping `totalSent` on success; the catch-all turns any delivery failure into
`queueFailedWebhook`, so the returned promise resolves (`Except.ok`) on every
path. -/
def emit (st : WebhookState) (ev : AutomationEvent) (http : HttpResult)
    (now newId : Nat) : Except String WebhookState :=
  if st.webhookUrl = "" then
    .ok st
  else
    match sendWebhook http with
    | .ok _ => .ok { st with stats := { st.stats with totalSent := st.stats.totalSent + 1 } }
    | .error _ => .ok (queueFailedWebhook st ev now newId)

/-- The backoff delay computed at line 191:
`retryDelay * Math.pow(2, item.attempts - 1)`, where `item.attempts` is the
just-incremented attempt counter. -/
def backoffDelay (attempts : Nat) : Nat := retryDelay * 2 ^ (attempts - 1)

/-- The filter at lines 161-162: an item is due for retry when
`nextRetry <= now && attempts < maxRetries`. -/
def isDue (now : Nat) (it : WebhookQueueItem) : Bool :=
  decide (it.nextRetry ≤ now) && decide (it.attempts < it.maxRetries)

/-- The loop body of `processRetryQueue` (lines 170-196) for one due item:
increment `attempts`, attempt delivery; on success remove the item
(`none`); on failure remove it when `attempts >= maxRetries`, else keep it
with `nextRetry` pushed out by the exponential backoff. -/
def processItem (now : Nat) (delivered : Bool) (it : WebhookQueueItem) :
    Option WebhookQueueItem :=
  let it1 := { it with attempts := it.attempts + 1 }
  if delivered then
    none
  else if it1.maxRetries ≤ it1.attempts then
    none
  else
    some { it1 with nextRetry := now + backoffDelay it1.attempts }

/-- `processRetryQueue` (lines 159-197) over the whole queue: due items are
processed by `processItem`, the rest are untouched.  `deliver` gives the HTTP
outcome of the retry attempt for each item id. -/
def processRetryQueue (now : Nat) (deliver : Nat → HttpResult)
    (q : List WebhookQueueItem) : List WebhookQueueItem :=
  q.filterMap fun it =>
    if isDue now it then processItem now (deliverySucceeds (deliver it.id)) it
    else some it

/-- One periodic retry sweep as seen by a single queue item, together with a
counter of how many retry attempts have been made on it so far. -/
def sweepItem (now : Nat) (http : HttpResult) :
    Nat × Option WebhookQueueItem → Nat × Option WebhookQueueItem
  | (n, none) => (n, none)
  | (n, some it) =>
      if isDue now it then (n + 1, processItem now (deliverySucceeds http) it)
      else (n, some it)

/-- A sequence of retry sweeps applied to a single queue item; each sweep is
a (current time, HTTP outcome of the attempt, if one is made) pair. -/
def runSweeps (sweeps : List (Nat × HttpResult))
    (s : Nat × Option WebhookQueueItem) : Nat × Option WebhookQueueItem :=
  sweeps.foldl (fun acc p => sweepItem p.1 p.2 acc) s

/-! ## ImageGenerationService (services/ImageGenerationService.ts) -/

/-- The two registered provider names (`providers.set('gemini', ...)` then
`providers.set('seedream', ...)` in the `ImageGenerationService` constructor;
`defaultProvider` is the Gemini instance). -/
inductive ProviderName
  | gemini
  | seedream
deriving Repr, DecidableEq

/-- Which providers currently report `isAvailable()` (Gemini: the Gemini API
key is present; SeeDream: the fal.ai key is present and the client
initialized). -/
structure ProviderAvailability where
  gemini : Bool
  seedream : Bool
deriving Repr, DecidableEq

/-- JavaScript `String.prototype.includes` on the underlying character
lists: `hasSub pat l` is true when `pat` occurs contiguously in `l`. -/
def hasSub (pat : List Char) : List Char → Bool
  | [] => pat.isEmpty
  | c :: rest => pat.isPrefixOf (c :: rest) || hasSub pat rest

/-- `s.includes(pat)` for Lean strings. -/
def strIncludes (s pat : String) : Bool := hasSub pat.data s.data

/-- JavaScript `String.prototype.toLowerCase` restricted to the ASCII
letters actually used by the keyword lists. -/
def jsToLower (s : String) : String := ⟨s.data.map Char.toLower⟩

/-- The party-keyword list of `selectOptimalProvider` (line 312). -/
def partyKeywords : List String :=
  ["strip club", "nightlife", "club", "party", "gigolo", "beach", "cocaine cowboy"]

/-- The professional-keyword list of `selectOptimalProvider` (line 313). -/
def professionalKeywords : List String :=
  ["drug lord", "sugar daddy", "business", "executive"]

/-- `isPartyTheme` (lines 318-320): some party keyword occurs in the
lowercased prompt or the lowercased style name. -/
def isPartyTheme (prompt styleName : String) : Bool :=
  partyKeywords.any fun k =>
    strIncludes (jsToLower prompt) k || strIncludes (jsToLower styleName) k

/-- `isProfessionalTheme` (lines 322-324). -/
def isProfessionalTheme (prompt styleName : String) : Bool :=
  professionalKeywords.any fun k =>
    strIncludes (jsToLower prompt) k || strIncludes (jsToLower styleName) k

/-- `ImageGenerationService.selectOptimalProvider` (lines 310-355): party
theme with SeeDream available wins first, then professional theme with
Gemini available, then the default provider (the Gemini instance), then the
registered providers in registration order (gemini, seedream); with nothing
available it throws `No image generation providers available`. -/
def selectOptimalProvider (avail : ProviderAvailability) (prompt styleName : String) :
    Except String ProviderName :=
  if isPartyTheme prompt styleName && avail.seedream then
    .ok .seedream
  else if isProfessionalTheme prompt styleName && avail.gemini then
    .ok .gemini
  else if avail.gemini then
    .ok .gemini
  else if avail.gemini then
    .ok .gemini
  else if avail.seedream then
    .ok .seedream
  else
    .error "No image generation providers available"

/-! ## Commerce post-processing (GeminiProvider.enhanceForCommerce and
ByteDanceSeedreamProvider.enhanceForCommerce, ImageGenerationService.ts) -/

/-- The four derived image representations (`GeneratedImageOutput.urls`). -/
structure UrlSet where
  webDisplay : String
  printReady : String
  thumbnail : String
  socialShare : String
deriving Repr, DecidableEq

/-- `GeneratedImageOutput.metadata`.  The heuristic `qualityScore` (a random
float) is omitted; nothing in the specified behaviour depends on it. -/
structure OutputMetadata where
  printDPI : Nat
  commerceReady : Bool
  provider : ProviderName
  generationTime : Nat
  styleName : String
  styleId : String
deriving Repr, DecidableEq

/-- `GeneratedImageOutput`. -/
structure GeneratedImageOutput where
  urls : UrlSet
  metadata : OutputMetadata
  id : String
deriving Repr, DecidableEq

/-- `enhanceForCommerce` (GeminiProvider lines 79-124; the SeeDream version
at lines 240-285 is identical up to the provider tag and id format, so both
are embedded by this one definition, tagged by `provider`).  The outcome of
`ImageProcessingService.processImageForCommerce` is the parameter
`processed`: on success the processed URL set is used and the output is
marked commerce-ready; the catch branch falls back to the original generated
URL for all four formats and sets `commerceReady := false`. -/
def enhanceForCommerce (provider : ProviderName) (processed : Except String UrlSet)
    (webUrl : String) (styleId styleName : String) (genTime : Nat) (id : String) :
    GeneratedImageOutput :=
  match processed with
  | .ok urls =>
      { urls := urls,
        metadata :=
          { printDPI := 300, commerceReady := true, provider := provider,
            generationTime := genTime, styleName := styleName, styleId := styleId },
        id := id }
  | .error _ =>
      { urls := { webDisplay := webUrl, printReady := webUrl,
                  thumbnail := webUrl, socialShare := webUrl },
        metadata :=
          { printDPI := 300, commerceReady := false, provider := provider,
            generationTime := genTime, styleName := styleName, styleId := styleId },
        id := id }

/-- A provider's `generateImage` (GeminiProvider lines 62-77, SeeDream lines
187-224): the remote generation call either yields a web-display URL or
throws (`remote`); a throw propagates to the caller, a success is passed
through `enhanceForCommerce`. -/
def providerGenerateImage (provider : ProviderName)
    (remote : Except String String) (processed : Except String UrlSet)
    (styleId styleName : String) (genTime : Nat) (id : String) :
    Except String GeneratedImageOutput :=
  match remote with
  | .error e => .error e
  | .ok webUrl =>
      .ok (enhanceForCommerce provider processed webUrl styleId styleName genTime id)

/-! ## Generation orchestrator (`handleGenerateClick`, `processStyle`,
`handleRegenerateStyle` in the main App component) -/

/-- The per-style UI state (`GeneratedImage`): `status: 'pending' | 'done' |
'error'` with the image URL on `done` and the message on `error`. -/
inductive GenStatus
  | pending
  | done (url : String)
  | error (msg : String)
deriving Repr, DecidableEq

/-- `done` and `error` are the terminal states. -/
def GenStatus.isTerminal : GenStatus → Bool
  | .pending => false
  | .done _ => true
  | .error _ => true

/-- The `generatedImages` record: a style key either has an entry or not. -/
def ResultsMap : Type := String → Option GenStatus

/-- The functional-update form `setGeneratedImages(prev => ({...prev,
[styleKey]: v}))`: one key is rewritten, all other keys keep their value. -/
def updateResult (m : ResultsMap) (k : String) (v : GenStatus) : ResultsMap :=
  fun s => if s = k then some v else m s

/-- The status `processStyle` records for a style (lines 359-394): the
try-branch writes `done` with the URL returned by the generation service,
the catch-branch writes `error` with the thrown message.  The whole body is
covered by the try/catch, so the recorded status is always terminal. -/
def outcomeStatus (o : Except String String) : GenStatus :=
  match o with
  | .ok url => .done url
  | .error msg => .error msg

/-- The shared state of `handleGenerateClick`'s worker pool: the remaining
`stylesQueue`, each worker's current item (`none` = between items or
finished), and the observable `generatedImages` map. -/
structure BatchState where
  stylesQueue : List String
  workers : List (Option String)
  results : ResultsMap

/-- The map `handleGenerateClick` installs before starting the workers
(lines 350-354): every requested style key is `pending`, everything else was
just cleared. -/
def initialResults (styles : List String) : ResultsMap :=
  fun s => if styles.contains s then some .pending else none

/-- The orchestrator state right after the workers are created (lines
355-357 and 396): the full queue, `w` idle workers, all styles pending. -/
def initialBatch (styles : List String) (w : Nat) : BatchState :=
  ⟨styles, List.replicate w none, initialResults styles⟩

/-- Small-step semantics of the worker pool (lines 396-403).  The JavaScript
runtime is single-threaded, so `stylesQueue.shift()` is atomic: a `pop` step
hands the head of the queue to one idle worker.  A `finish` step is the
completion of that worker's `await processStyle(styleKey)`: the worker's
result (success URL or caught error, given by the environment `outcome`) is
written to the results map and the worker returns to its loop head.  Steps
of different workers interleave arbitrarily. -/
inductive BatchStep (outcome : String → Except String String) :
    BatchState → BatchState → Prop
  | pop (q : List String) (s : String) (ws : List (Option String))
      (res : ResultsMap) (i : Nat) (hi : ws[i]? = some none) :
      BatchStep outcome ⟨s :: q, ws, res⟩ ⟨q, ws.set i (some s), res⟩
  | finish (q : List String) (ws : List (Option String)) (res : ResultsMap)
      (i : Nat) (s : String) (hi : ws[i]? = some (some s)) :
      BatchStep outcome ⟨q, ws, res⟩
        ⟨q, ws.set i none, updateResult res s (outcomeStatus (outcome s))⟩

/-- Reachability under any interleaving of worker steps. -/
def BatchReachable (outcome : String → Except String String) :
    BatchState → BatchState → Prop :=
  Relation.ReflTransGen (BatchStep outcome)

/-- The batch-complete signal: `await Promise.all(workers)` has resolved,
i.e. every worker has observed an empty queue and exited its loop, so the
queue is empty and no worker holds an item. -/
def BatchComplete (st : BatchState) : Prop :=
  st.stylesQueue = [] ∧ ∀ w ∈ st.workers, w = none

/-- `handleRegenerateStyle` (lines 411-461), sequentially: guard on a
missing upload, guard on `status === 'pending'`, otherwise set the key to
`pending` and then record the outcome of the fresh generation call.  The
returned list is the sequence of observable `generatedImages` maps, and the
Boolean records whether the generation service was invoked. -/
def handleRegenerateStyle (uploadedImage : Option String) (generatedImages : ResultsMap)
    (styleKey : String) (outcome : Except String String) :
    List ResultsMap × Bool :=
  match uploadedImage with
  | none => ([generatedImages], false)
  | some _ =>
      if generatedImages styleKey = some .pending then
        ([generatedImages], false)
      else
        let afterPending := updateResult generatedImages styleKey .pending
        let final := updateResult afterPending styleKey (outcomeStatus outcome)
        ([generatedImages, afterPending, final], true)

/-! ## Invariants of the worker pool -/

/-- The status a worker records is always terminal. -/
theorem outcomeStatus_isTerminal (o : Except String String) :
    (outcomeStatus o).isTerminal = true := by
  cases o <;> rfl

/-- Core invariant of the worker pool: every requested style is still in the
queue, currently held by a worker, or already recorded with its outcome. -/
def BatchInv (outcome : String → Except String String) (styles : List String)
    (st : BatchState) : Prop :=
  ∀ s ∈ styles, s ∈ st.stylesQueue ∨ some s ∈ st.workers ∨
    st.results s = some (outcomeStatus (outcome s))

theorem batchInv_init (outcome : String → Except String String)
    (styles : List String) (w : Nat) :
    BatchInv outcome styles (initialBatch styles w) :=
  fun _ hs => Or.inl hs

/-- Membership in a list survives `set` at a position holding a different
value. -/
theorem mem_set_of_ne {α : Type} {ws : List α} {a b : α} {i : Nat} {v : α}
    (ha : a ∈ ws) (hi : ws[i]? = some b) (hne : a ≠ b) : a ∈ ws.set i v := by
  obtain ⟨j, hj⟩ := List.mem_iff_getElem?.mp ha
  have hij : i ≠ j := by
    rintro rfl
    rw [hi] at hj
    exact hne (Option.some.inj hj).symm
  exact List.mem_iff_getElem?.mpr ⟨j, by rw [List.getElem?_set_ne hij]; exact hj⟩

/-- One worker step preserves the invariant. -/
theorem batchInv_step {outcome : String → Except String String}
    {styles : List String} {st st' : BatchState}
    (h : BatchStep outcome st st') (inv : BatchInv outcome styles st) :
    BatchInv outcome styles st' := by
  cases h with
  | pop q s0 ws res i hi =>
    intro s hs
    rcases inv s hs with hq | hw | hrec
    · rcases List.mem_cons.mp hq with rfl | hq'
      · refine Or.inr (Or.inl ?_)
        have hlen : i < ws.length := (List.getElem?_eq_some_iff.mp hi).1
        exact List.mem_iff_getElem?.mpr ⟨i, by simp [hlen]⟩
      · exact Or.inl hq'
    · exact Or.inr (Or.inl (mem_set_of_ne hw hi (by simp)))
    · exact Or.inr (Or.inr hrec)
  | finish q ws res i s0 hi =>
    intro s hs
    rcases inv s hs with hq | hw | hrec
    · exact Or.inl hq
    · by_cases hss : s = s0
      · subst hss
        exact Or.inr (Or.inr (by simp [updateResult]))
      · exact Or.inr (Or.inl (mem_set_of_ne hw hi (by simpa using hss)))
    · refine Or.inr (Or.inr ?_)
      by_cases hss : s = s0
      · subst hss; simp [updateResult]
      · simpa [updateResult, hss] using hrec

/-- The invariant holds in every reachable state. -/
theorem batchInv_reachable {outcome : String → Except String String}
    {styles : List String} {st st' : BatchState}
    (hr : BatchReachable outcome st st') (inv : BatchInv outcome styles st) :
    BatchInv outcome styles st' := by
  induction hr with
  | refl => exact inv
  | tail _ hstep ih => exact batchInv_step hstep ih

/-- In a completed batch every requested style carries its worker's
outcome. -/
theorem batch_complete_results {outcome : String → Except String String}
    {styles : List String} {w : Nat} {st : BatchState}
    (hr : BatchReachable outcome (initialBatch styles w) st)
    (hc : BatchComplete st) :
    ∀ s ∈ styles, st.results s = some (outcomeStatus (outcome s)) := by
  intro s hs
  rcases batchInv_reachable hr (batchInv_init outcome styles w) s hs with hq | hw | hrec
  · rw [hc.1] at hq; cases hq
  · cases hc.2 _ hw
  · exact hrec

/-! ## Claim theorems for the orchestrator -/

/-- C1: for every batch started by `handleGenerateClick` with `N` styleIds
and worker-pool size `W ≤ N`, in any state reachable by interleaved worker
steps in which the batch-complete signal fires (queue drained, all workers
finished), every requested styleId has a result in a terminal state (`done`
or `error`) and no styleId is left `pending`. -/
theorem batch_complete_all_terminal
    (outcome : String → Except String String) (styles : List String) (w : Nat)
    (st : BatchState) (_hw : w ≤ styles.length)
    (hr : BatchReachable outcome (initialBatch styles w) st)
    (hc : BatchComplete st) :
    ∀ s ∈ styles,
      (∃ g, st.results s = some g ∧ g.isTerminal = true) ∧
      st.results s ≠ some GenStatus.pending := by
  intro s hs
  have h := batch_complete_results hr hc s hs
  refine ⟨⟨outcomeStatus (outcome s), h, outcomeStatus_isTerminal _⟩, ?_⟩
  rw [h]
  intro hcontra
  have := Option.some.inj hcontra
  rw [← this] at hcontra
  cases ho : outcome s <;> simp [outcomeStatus, ho] at this

/-- C6: if the generation of one styleId in a batch fails (the provider call
throws), that styleId's completed result is `error` with the thrown message,
and every other styleId in the batch still reaches its own terminal state. -/
theorem batch_failure_does_not_stop_siblings
    (outcome : String → Except String String) (styles : List String) (w : Nat)
    (st : BatchState) (_hw : w ≤ styles.length)
    (hr : BatchReachable outcome (initialBatch styles w) st)
    (hc : BatchComplete st)
    (b : String) (msg : String) (hb : b ∈ styles) (hout : outcome b = .error msg) :
    st.results b = some (GenStatus.error msg) ∧
      ∀ a ∈ styles, st.results a = some (outcomeStatus (outcome a)) ∧
        (outcomeStatus (outcome a)).isTerminal = true := by
  refine ⟨?_, fun a ha => ⟨batch_complete_results hr hc a ha, outcomeStatus_isTerminal _⟩⟩
  have h := batch_complete_results hr hc b hb
  rw [hout] at h
  exact h

/-- Witness for C1: a concrete batch of two styles run by two workers, with
every hypothesis of `batch_complete_all_terminal` discharged on an explicit
interleaving. -/
theorem batch_complete_all_terminal_witness :
    (∃ g, (updateResult (updateResult (initialResults ["a", "b"]) "a" (GenStatus.done "u"))
        "b" (GenStatus.done "u")) "a" = some g ∧ g.isTerminal = true) ∧
    (updateResult (updateResult (initialResults ["a", "b"]) "a" (GenStatus.done "u"))
        "b" (GenStatus.done "u")) "a" ≠ some GenStatus.pending := by
  have hreach : BatchReachable (fun _ => Except.ok "u") (initialBatch ["a", "b"] 2)
      ⟨[], [none, none],
        updateResult (updateResult (initialResults ["a", "b"]) "a" (GenStatus.done "u"))
          "b" (GenStatus.done "u")⟩ := by
    refine Relation.ReflTransGen.head
      (BatchStep.pop ["b"] "a" (List.replicate 2 none) (initialResults ["a", "b"]) 0 rfl) ?_
    refine Relation.ReflTransGen.head (BatchStep.pop [] "b" _ _ 1 rfl) ?_
    refine Relation.ReflTransGen.head (BatchStep.finish [] _ _ 0 "a" rfl) ?_
    exact Relation.ReflTransGen.single (BatchStep.finish [] _ _ 1 "b" rfl)
  have h := batch_complete_all_terminal (fun _ => Except.ok "u") ["a", "b"] 2 _
    (by decide) hreach ⟨rfl, by decide⟩
  exact h "a" (by simp)

/-- Witness for C6: a concrete three-style batch in which style `b` throws
`boom`; the final map has `b` in `error` and `a`, `c` in `done`. -/
theorem batch_failure_does_not_stop_siblings_witness :
    (updateResult (updateResult (updateResult (initialResults ["a", "b", "c"]) "a"
        (GenStatus.done "u")) "b" (GenStatus.error "boom")) "c" (GenStatus.done "u")) "b" =
      some (GenStatus.error "boom") ∧
    ∀ a ∈ ["a", "b", "c"],
      (updateResult (updateResult (updateResult (initialResults ["a", "b", "c"]) "a"
          (GenStatus.done "u")) "b" (GenStatus.error "boom")) "c" (GenStatus.done "u")) a =
        some (outcomeStatus ((fun s => if s = "b" then Except.error "boom" else Except.ok "u") a)) ∧
      (outcomeStatus ((fun s => if s = "b" then Except.error "boom" else Except.ok "u") a)).isTerminal = true := by
  have hreach : BatchReachable
      (fun s => if s = "b" then Except.error "boom" else Except.ok "u")
      (initialBatch ["a", "b", "c"] 2)
      ⟨[], [none, none],
        updateResult (updateResult (updateResult (initialResults ["a", "b", "c"]) "a"
          (GenStatus.done "u")) "b" (GenStatus.error "boom")) "c" (GenStatus.done "u")⟩ := by
    refine Relation.ReflTransGen.head
      (BatchStep.pop ["b", "c"] "a" (List.replicate 2 none) (initialResults ["a", "b", "c"]) 0 rfl) ?_
    refine Relation.ReflTransGen.head (BatchStep.pop ["c"] "b" _ _ 1 rfl) ?_
    refine Relation.ReflTransGen.head (BatchStep.finish ["c"] _ _ 0 "a" rfl) ?_
    refine Relation.ReflTransGen.head (BatchStep.pop [] "c" _ _ 0 rfl) ?_
    refine Relation.ReflTransGen.head (BatchStep.finish [] _ _ 1 "b" rfl) ?_
    exact Relation.ReflTransGen.single (BatchStep.finish [] _ _ 0 "c" rfl)
  exact batch_failure_does_not_stop_siblings
    (fun s => if s = "b" then Except.error "boom" else Except.ok "u")
    ["a", "b", "c"] 2 _ (by decide) hreach ⟨rfl, by decide⟩ "b" "boom" (by simp) rfl

/-- C7: invoking regenerate on a styleId whose status is `done` or `error`
resets exactly that styleId to `pending`, then produces exactly one new
terminal result for it; every other styleId's entry is unchanged in every
observable intermediate and final map. -/
theorem regenerate_resets_single_style (img : String) (res : ResultsMap)
    (k : String) (outcome : Except String String)
    (hterm : (∃ u, res k = some (GenStatus.done u)) ∨
             (∃ e, res k = some (GenStatus.error e))) :
    ∃ mid fin,
      handleRegenerateStyle (some img) res k outcome = ([res, mid, fin], true) ∧
      mid k = some GenStatus.pending ∧
      fin k = some (outcomeStatus outcome) ∧
      (outcomeStatus outcome).isTerminal = true ∧
      ∀ j, j ≠ k → mid j = res j ∧ fin j = res j := by
  have hne : ¬ res k = some GenStatus.pending := by
    rcases hterm with ⟨u, hu⟩ | ⟨e, he⟩
    · simp [hu]
    · simp [he]
  refine ⟨updateResult res k .pending,
    updateResult (updateResult res k .pending) k (outcomeStatus outcome), ?_, ?_, ?_, ?_, ?_⟩
  · simp [handleRegenerateStyle, hne]
  · simp [updateResult]
  · simp [updateResult]
  · exact outcomeStatus_isTerminal outcome
  · intro j hj
    simp [updateResult, hj]

/-- Witness for C7: regenerating style `a` (currently `done`) of a concrete
two-style map; style `b`'s entry survives untouched. -/
theorem regenerate_resets_single_style_witness :
    ∃ mid fin,
      handleRegenerateStyle (some "pic")
        (fun s => if s = "a" then some (GenStatus.done "old")
                  else if s = "b" then some (GenStatus.error "e") else none)
        "a" (Except.ok "new") =
        ([fun s => if s = "a" then some (GenStatus.done "old")
                   else if s = "b" then some (GenStatus.error "e") else none,
          mid, fin], true) ∧
      mid "a" = some GenStatus.pending ∧
      fin "a" = some (outcomeStatus (Except.ok "new")) ∧
      (outcomeStatus (Except.ok "new")).isTerminal = true ∧
      ∀ j, j ≠ "a" → mid j =
          (if j = "a" then some (GenStatus.done "old")
           else if j = "b" then some (GenStatus.error "e") else none) ∧
        fin j =
          (if j = "a" then some (GenStatus.done "old")
           else if j = "b" then some (GenStatus.error "e") else none) :=
  regenerate_resets_single_style "pic"
    (fun s => if s = "a" then some (GenStatus.done "old")
              else if s = "b" then some (GenStatus.error "e") else none)
    "a" (Except.ok "new") (Or.inl ⟨"old", by simp⟩)

/-- C9: invoking regenerate on a styleId whose status is `pending` is a
no-op: no generation call is made and the observable result map is exactly
the input map. -/
theorem regenerate_pending_noop (img : Option String) (res : ResultsMap)
    (k : String) (outcome : Except String String)
    (hp : res k = some GenStatus.pending) :
    handleRegenerateStyle img res k outcome = ([res], false) := by
  cases img with
  | none => rfl
  | some v => simp [handleRegenerateStyle, hp]

/-- Witness for C9: regenerating the currently pending style `a` leaves the
concrete map untouched and performs no generation call. -/
theorem regenerate_pending_noop_witness :
    handleRegenerateStyle (some "pic")
      (fun s => if s = "a" then some GenStatus.pending else none)
      "a" (Except.ok "new") =
      ([fun s => if s = "a" then some GenStatus.pending else none], false) :=
  regenerate_pending_noop (some "pic")
    (fun s => if s = "a" then some GenStatus.pending else none)
    "a" (Except.ok "new") (by simp)

/-! ## Claim theorems for provider selection -/

/-- C2: a prompt or style name containing a nightlife/party keyword with the
SeeDream provider available selects SeeDream (first match wins, with party
before professional); a prompt with only professional keywords and Gemini
available selects Gemini; with no registered provider available, selection
fails with the no-providers error. -/
theorem selectOptimalProvider_spec (avail : ProviderAvailability)
    (prompt styleName : String) :
    (isPartyTheme prompt styleName = true → avail.seedream = true →
      selectOptimalProvider avail prompt styleName = .ok .seedream) ∧
    (isPartyTheme prompt styleName = false → isProfessionalTheme prompt styleName = true →
      avail.gemini = true →
      selectOptimalProvider avail prompt styleName = .ok .gemini) ∧
    (avail.gemini = false → avail.seedream = false →
      selectOptimalProvider avail prompt styleName =
        .error "No image generation providers available") := by
  refine ⟨?_, ?_, ?_⟩
  · intro hp hs
    simp [selectOptimalProvider, hp, hs]
  · intro hp hprof hg
    simp [selectOptimalProvider, hp, hprof, hg]
  · intro hg hs
    simp [selectOptimalProvider, hg, hs]

/-- Witness for C2: `Miami nightlife shoot` selects SeeDream when both
providers are available; `Corporate executive portrait` (professional, no
party keyword) selects Gemini; and with both providers unavailable the
selection fails with the no-providers error. -/
theorem selectOptimalProvider_spec_witness :
    selectOptimalProvider ⟨true, true⟩ "Miami NIGHTLIFE shoot" "Beach Daze" = .ok .seedream ∧
    selectOptimalProvider ⟨true, false⟩ "Corporate Executive portrait" "Boss" = .ok .gemini ∧
    selectOptimalProvider ⟨false, false⟩ "Miami NIGHTLIFE shoot" "Beach Daze" =
      .error "No image generation providers available" := by
  refine ⟨?_, ?_, ?_⟩
  · exact (selectOptimalProvider_spec ⟨true, true⟩ "Miami NIGHTLIFE shoot" "Beach Daze").1
      (by decide) rfl
  · exact (selectOptimalProvider_spec ⟨true, false⟩ "Corporate Executive portrait" "Boss").2.1
      (by decide) (by decide) rfl
  · exact (selectOptimalProvider_spec ⟨false, false⟩ "Miami NIGHTLIFE shoot" "Beach Daze").2.2
      rfl rfl

/-- C5: when the remote image-generation call succeeds but the commerce
post-processing step fails, the provider's `generateImage` still resolves
successfully, with all four derived URLs equal to the original generated
image URL and `commerceReady = false`. -/
theorem generateImage_degrades_on_processing_failure (provider : ProviderName)
    (remote : Except String String) (processed : Except String UrlSet)
    (styleId styleName : String) (genTime : Nat) (id : String)
    (url : String) (hok : remote = .ok url)
    (msg : String) (hfail : processed = .error msg) :
    ∃ out,
      providerGenerateImage provider remote processed styleId styleName genTime id =
        .ok out ∧
      out.urls.webDisplay = url ∧ out.urls.printReady = url ∧
      out.urls.thumbnail = url ∧ out.urls.socialShare = url ∧
      out.metadata.commerceReady = false := by
  subst hok hfail
  exact ⟨_, rfl, rfl, rfl, rfl, rfl, rfl⟩

/-- Witness for C5: a concrete successful generation whose post-processor
throws; the output degrades to the original URL with `commerceReady =
false`. -/
theorem generateImage_degrades_on_processing_failure_witness :
    ∃ out,
      providerGenerateImage ProviderName.gemini (Except.ok "http://img/x")
        (Except.error "canvas failed") "style1" "Nightlife" 42 "style1-1" = .ok out ∧
      out.urls.webDisplay = "http://img/x" ∧ out.urls.printReady = "http://img/x" ∧
      out.urls.thumbnail = "http://img/x" ∧ out.urls.socialShare = "http://img/x" ∧
      out.metadata.commerceReady = false :=
  generateImage_degrades_on_processing_failure ProviderName.gemini
    (Except.ok "http://img/x") (Except.error "canvas failed") "style1" "Nightlife"
    42 "style1-1" "http://img/x" rfl "canvas failed" rfl

/-! ## Claim theorems for the webhook service -/

/-- C4: `emit` never rejects: on every path it resolves (`Except.ok`), and
when a delivery was attempted and failed, the event is wrapped in a
`WebhookQueueItem` and prepended to the in-memory retry queue instead of the
error propagating. -/
theorem emit_never_throws (st : WebhookState) (ev : AutomationEvent)
    (http : HttpResult) (now newId : Nat) :
    (∃ st', emit st ev http now newId = .ok st') ∧
    (st.webhookUrl ≠ "" → ∀ e, sendWebhook http = .error e →
      emit st ev http now newId = .ok (queueFailedWebhook st ev now newId) ∧
      (queueFailedWebhook st ev now newId).failedQueue =
        { id := newId, event := ev, attempts := 0, nextRetry := now + retryDelay,
          maxRetries := serviceMaxRetries, createdAt := now } :: st.failedQueue) := by
  constructor
  · by_cases hurl : st.webhookUrl = ""
    · exact ⟨st, by simp [emit, hurl]⟩
    · cases hsend : sendWebhook http with
      | ok u =>
          exact ⟨{ st with stats := { st.stats with totalSent := st.stats.totalSent + 1 } },
            by simp [emit, hurl, hsend]⟩
      | error e =>
          exact ⟨queueFailedWebhook st ev now newId, by simp [emit, hurl, hsend]⟩
  · intro hurl e hsend
    exact ⟨by simp [emit, hurl, hsend], rfl⟩

/-- Witness for C4: a concrete `emit` against an endpoint answering HTTP 500
resolves normally and queues the event for retry. -/
theorem emit_never_throws_witness :
    emit ⟨"https://n8n.example/hook", [], ⟨0, 0, 0⟩⟩ ⟨"image_generated", "d", none⟩
        (HttpResult.response 500 "oops") 1000 7 =
      .ok (queueFailedWebhook ⟨"https://n8n.example/hook", [], ⟨0, 0, 0⟩⟩
        ⟨"image_generated", "d", none⟩ 1000 7) ∧
    (queueFailedWebhook ⟨"https://n8n.example/hook", [], ⟨0, 0, 0⟩⟩
        ⟨"image_generated", "d", none⟩ 1000 7).failedQueue =
      [{ id := 7, event := ⟨"image_generated", "d", none⟩, attempts := 0,
         nextRetry := 1000 + retryDelay, maxRetries := serviceMaxRetries,
         createdAt := 1000 }] :=
  (emit_never_throws ⟨"https://n8n.example/hook", [], ⟨0, 0, 0⟩⟩
      ⟨"image_generated", "d", none⟩ (HttpResult.response 500 "oops") 1000 7).2
    (by decide) "Webhook request failed: 500 - oops" rfl

/-- C10: with no webhook endpoint URL configured, `emit` resolves
successfully without performing any delivery and with the retry queue and
the `totalSent`/`totalFailed`/`totalRetried` statistics untouched. -/
theorem emit_unconfigured_noop (st : WebhookState) (ev : AutomationEvent)
    (http : HttpResult) (now newId : Nat) (h : st.webhookUrl = "") :
    emit st ev http now newId = .ok st := by
  simp [emit, h]

/-- Witness for C10: a concrete unconfigured service state passes through
`emit` unchanged. -/
theorem emit_unconfigured_noop_witness :
    emit ⟨"", [], ⟨3, 1, 2⟩⟩ ⟨"social_share", "d", some "u1"⟩
      (HttpResult.response 200 "ok") 5 9 = .ok ⟨"", [], ⟨3, 1, 2⟩⟩ :=
  emit_unconfigured_noop ⟨"", [], ⟨3, 1, 2⟩⟩ ⟨"social_share", "d", some "u1"⟩
    (HttpResult.response 200 "ok") 5 9 rfl

/-- Invariant tying the retry counter of a live queue item to the number of
retry attempts made on it: a removed item was retried at most `M` times; a
live item has been retried exactly `attempts` times and still has retry
budget left. -/
def SweepInv (M : Nat) (s : Nat × Option WebhookQueueItem) : Prop :=
  match s with
  | (n, none) => n ≤ M
  | (n, some it) => n = it.attempts ∧ it.attempts < it.maxRetries ∧ it.maxRetries = M

theorem sweepInv_step {M now : Nat} {http : HttpResult}
    {s : Nat × Option WebhookQueueItem} (h : SweepInv M s) :
    SweepInv M (sweepItem now http s) := by
  obtain ⟨n, o⟩ := s
  cases o with
  | none => exact h
  | some it =>
    obtain ⟨hn, hlt, hM⟩ := h
    by_cases hdue : isDue now it
    · cases hdel : deliverySucceeds http with
      | true => simp [sweepItem, hdue, hdel, processItem, SweepInv]; omega
      | false =>
        by_cases hmax : it.maxRetries ≤ it.attempts + 1
        · simp [sweepItem, hdue, hdel, processItem, hmax, SweepInv]; omega
        · simp [sweepItem, hdue, hdel, processItem, hmax, SweepInv]; omega
    · simp [sweepItem, hdue, SweepInv]
      exact ⟨hn, hlt, hM⟩

theorem sweepInv_run {M : Nat} (sweeps : List (Nat × HttpResult))
    (s : Nat × Option WebhookQueueItem) (h : SweepInv M s) :
    SweepInv M (runSweeps sweeps s) := by
  induction sweeps generalizing s with
  | nil => exact h
  | cons p rest ih => exact ih _ (sweepInv_step h)

theorem runSweeps_count_le {M : Nat} (sweeps : List (Nat × HttpResult))
    (s : Nat × Option WebhookQueueItem) (h : SweepInv M s) :
    (runSweeps sweeps s).1 ≤ M := by
  have hinv := sweepInv_run sweeps s h
  revert hinv
  obtain ⟨n, o⟩ := runSweeps sweeps s
  cases o with
  | none => intro hinv; exact hinv
  | some it =>
    intro hinv
    obtain ⟨hn, hlt, hM⟩ := hinv
    omega

/-- C3: for a queue item created by `queueFailedWebhook` (attempts = 0),
over any sequence of retry sweeps the item is retried at most `maxRetries`
times; each retry increments `attempts` by exactly one and an item that
survives a retry still has `attempts < maxRetries` and was a failed
delivery — so the moment `attempts` reaches `maxRetries` the item is gone
regardless of that attempt's outcome — and the scheduled exponential
backoff between consecutive retry attempts is strictly increasing. -/
theorem webhook_retry_invariants (it0 : WebhookQueueItem)
    (sweeps : List (Nat × HttpResult))
    (h0 : it0.attempts = 0) (hm : 0 < it0.maxRetries) :
    (runSweeps sweeps (0, some it0)).1 ≤ it0.maxRetries ∧
    (∀ now delivered it it', processItem now delivered it = some it' →
      it'.attempts = it.attempts + 1 ∧ it'.attempts < it.maxRetries ∧
      delivered = false ∧ it'.nextRetry = now + backoffDelay it'.attempts) ∧
    (∀ a, 1 ≤ a → backoffDelay a < backoffDelay (a + 1)) := by
  refine ⟨?_, ?_, ?_⟩
  · exact runSweeps_count_le sweeps _ ⟨h0.symm, by omega, rfl⟩
  · intro now delivered it it' h
    cases hdel : delivered with
    | true => subst hdel; simp [processItem] at h
    | false =>
      subst hdel
      by_cases hmax : it.maxRetries ≤ it.attempts + 1
      · simp [processItem, hmax] at h
      · simp [processItem, hmax] at h
        subst h
        refine ⟨rfl, ?_, rfl, rfl⟩
        show it.attempts + 1 < it.maxRetries
        omega
  · intro a ha
    have hpow : 2 ^ (a - 1) < 2 ^ (a + 1 - 1) :=
      Nat.pow_lt_pow_right (by decide) (by omega)
    unfold backoffDelay retryDelay
    omega

/-- Witness for C3: the concrete queue item of a failed `image_generated`
webhook survives at most three of four failing sweeps, and the backoff after
the first retry is shorter than the backoff after the second. -/
theorem webhook_retry_invariants_witness :
    (runSweeps [(30000, HttpResult.response 500 "e"), (60000, HttpResult.response 500 "e"),
        (90000, HttpResult.response 500 "e"), (120000, HttpResult.response 500 "e")]
      (0, some ⟨1, ⟨"image_generated", "d", none⟩, 0, 5000, 3, 0⟩)).1 ≤ 3 ∧
    backoffDelay 1 < backoffDelay 2 := by
  have h := webhook_retry_invariants ⟨1, ⟨"image_generated", "d", none⟩, 0, 5000, 3, 0⟩
    [(30000, HttpResult.response 500 "e"), (60000, HttpResult.response 500 "e"),
     (90000, HttpResult.response 500 "e"), (120000, HttpResult.response 500 "e")]
    rfl (by decide)
  exact ⟨h.1, h.2.2 1 (by decide)⟩

/-- C8: an event whose delivery gets HTTP 500 on the first attempt is
queued; with 500 again on the second attempt (first retry) and 200 on the
third (second retry), the item is retried exactly twice and removed from the
queue after the successful third attempt. -/
theorem webhook_retry_scenario_500_500_200 :
    emit ⟨"https://n8n.example/hook", [], ⟨0, 0, 0⟩⟩ ⟨"image_generated", "d", none⟩
        (HttpResult.response 500 "err") 0 1 =
      .ok ⟨"https://n8n.example/hook",
        [⟨1, ⟨"image_generated", "d", none⟩, 0, 5000, 3, 0⟩], ⟨0, 1, 0⟩⟩ ∧
    runSweeps [(30000, HttpResult.response 500 "err"), (60000, HttpResult.response 200 "ok")]
        (0, some ⟨1, ⟨"image_generated", "d", none⟩, 0, 5000, 3, 0⟩) =
      (2, none) :=
  ⟨rfl, rfl⟩

end MiamiApp
